import Mathlib

/-
Verification of the coupon lifecycle of the line-coupon service
(src/api/index.js): the staff redemption endpoint (POST /api/redeem),
the webhook trigger handler (handleEvent) and the code generator
(genCode), shallowly embedded in Lean.

Modelling conventions:
* Firestore Timestamps are modelled as integer milliseconds (every
  timestamp the program writes comes from Timestamp.now(),
  Timestamp.fromDate or Date arithmetic, all of millisecond precision;
  toMillis / toDate comparisons therefore coincide with Int comparisons).
* A Firestore document carries its document id separately from its data;
  the Coupon structure has an id field for it.
* Firestore collections are modelled as lists of documents in the
  store's enumeration order.  An orderBy issuedAt desc query is a stable
  descending sort of that list (ties among equal issuedAt values may be
  enumerated differently by the real server, but no property below
  depends on the relative order of ties).
* db.runTransaction(fn): writes issued through tx.update are buffered
  and committed only if fn returns normally; if fn throws, the
  transaction aborts, the buffered writes are discarded and the error is
  rethrown to the caller.
* Sources of nondeterminism (Timestamp.now(), crypto.randomBytes, the
  generated document id of collection.add) are passed as parameters.
-/

namespace LineCoupon

/-- One document of the coupons collection, together with its document id.
Field names follow src/api/index.js. -/
structure Coupon where
  id : Nat
  code : String
  userId : String
  issuedAt : Int
  expiresAt : Int
  usageLimit : Int
  usageCount : Int
  status : String
  lastUsedAt : Option Int
deriving DecidableEq, Repr

/-- Errors thrown by the transaction body of POST /api/redeem
(src/api/index.js lines 59-66). -/
inductive RedeemError where
  | notActive
  | expired
  | alreadyConsumed
deriving DecidableEq, Repr

/-- Body of db.runTransaction in POST /api/redeem (src/api/index.js lines
55-75).  The ok branch returns the coupon as written by the final
tx.update; an error branch carries the error thrown together with the
coupon state the body had submitted via tx.update before throwing (the
buffered, not yet committed write). -/
def redeemTxBody (now : Int) (c : Coupon) : Except (RedeemError × Coupon) Coupon :=
  if c.status ≠ "active" then .error (.notActive, c)
  else if c.expiresAt < now then .error (.expired, { c with status := "expired" })
  else if c.usageCount ≥ c.usageLimit then .error (.alreadyConsumed, { c with status := "consumed" })
  else
    let next := c.usageCount + 1
    .ok { c with
      usageCount := next
      lastUsedAt := some now
      status := if next ≥ c.usageLimit then "consumed" else c.status }

/-- Firestore transaction semantics applied to redeemTxBody: on normal
return the buffered write is committed; on a throw the transaction is
aborted, the buffered write is discarded (the stored coupon is
unchanged) and the error is reported to the caller. -/
def runRedeemTransaction (now : Int) (c : Coupon) : Option RedeemError × Coupon :=
  match redeemTxBody now c with
  | .ok c' => (none, c')
  | .error (e, _attempted) => (some e, c)

/-- Result of the POST /api/redeem handler, as sent in the JSON response
(src/api/index.js lines 46-52 and 77-82). -/
inductive RedeemResult where
  | missingCode
  | staffAuthFailed
  | notFound
  | txError (e : RedeemError)
  | ok (code : String) (usageCount usageLimit : Int) (status : String)
deriving DecidableEq, Repr

/-- Lookup db.collection('coupons').where('code','==',code).limit(1)
(src/api/index.js line 51): first stored coupon whose code field equals
the supplied string exactly (Firestore string equality is exact and
case-sensitive). -/
def findByCode (coupons : List Coupon) (code : String) : Option Coupon :=
  coupons.find? (fun c => c.code = code)

/-- Write-back of an updated document: every stored document with the
given document id is replaced by the new data (document ids are unique
in a real store). -/
def updateById (coupons : List Coupon) (i : Nat) (c' : Coupon) : List Coupon :=
  coupons.map (fun c => if c.id = i then c' else c)

/-- The POST /api/redeem handler (src/api/index.js lines 43-83).
staffPassCfg is process.env.STAFF_PASS (empty string when unset, so that
the truthiness test of the source is the non-emptiness test here); code
and staffPass are the request body fields (none models an absent field,
and an empty code string is falsy like an absent one). -/
def apiRedeem (staffPassCfg : String) (now : Int) (coupons : List Coupon)
    (code : Option String) (staffPass : Option String) : RedeemResult × List Coupon :=
  match code with
  | none => (.missingCode, coupons)
  | some codeStr =>
    if codeStr = "" then (.missingCode, coupons)
    else if staffPassCfg ≠ "" ∧ staffPass ≠ some staffPassCfg then (.staffAuthFailed, coupons)
    else
      match findByCode coupons codeStr with
      | none => (.notFound, coupons)
      | some c =>
        match runRedeemTransaction now c with
        | (some e, c') => (.txError e, updateById coupons c.id c')
        | (none, c') =>
          (.ok codeStr c'.usageCount c'.usageLimit c'.status, updateById coupons c.id c')

/-- Character of the base64url alphabet at a given index. -/
def b64Char (n : Nat) : Char :=
  "ABCDEFGHIJKLMNOPQRSTUVWXYZabcdefghijklmnopqrstuvwxyz0123456789-_".toList.getD n 'A'

/-- Indices of the 6-bit groups of the base64url encoding of a byte
list: the bytes are read as one big-endian bit string, padded on the
right with zero bits up to a multiple of six, and cut into 6-bit
groups. -/
def b64Groups (bytes : List Nat) : List Nat :=
  let nbits := 8 * bytes.length
  let ngroups := (nbits + 5) / 6
  let v := bytes.foldl (fun a b => a * 256 + b % 256) 0
  let vpad := v * 2 ^ (6 * ngroups - nbits)
  (List.range ngroups).map (fun i => vpad / 2 ^ (6 * (ngroups - 1 - i)) % 64)

/-- Character list of Buffer.toString('base64url') (no padding). -/
def b64chars (bytes : List Nat) : List Char :=
  (b64Groups bytes).map b64Char

/-- Buffer.toString('base64url') as a string. -/
def b64encode (bytes : List Nat) : String :=
  String.mk (b64chars bytes)

/-- Character list produced by genCode (src/api/index.js lines 464-466)
from the seven random bytes: base64url encoding, then
replace(dash-or-underscore, empty), then slice(0,10), then
toUpperCase(). -/
def genCodeChars (bytes : List Nat) : List Char :=
  (((b64chars bytes).filter (fun ch => !(ch == '-' || ch == '_'))).take 10).map Char.toUpper

/-- genCode (src/api/index.js lines 464-466), as a function of the bytes
returned by crypto.randomBytes(7). -/
def genCode (bytes : List Nat) : String :=
  String.mk (genCodeChars bytes)

/-- An inbound webhook event, restricted to the fields handleEvent reads
(src/api/index.js lines 284-299). -/
structure MsgEvent where
  eventType : String
  messageType : String
  messageId : String
  replyToken : String
  userId : String
  text : String
deriving DecidableEq, Repr

/-- Environment configuration read by handleEvent: COUPON_KEYWORDS
already split on commas and trimmed, VALID_HOURS, ISSUE_COOLDOWN_MINUTES
and ISSUE_MAX_PER_DAY. -/
structure Config where
  keywords : List String
  validHours : Int
  cooldownMin : Int
  maxPerDay : Int
deriving DecidableEq, Repr

/-- Cooldown test of src/api/index.js lines 337-338: the source computes
passedMin = (now.toMillis() - last.issuedAt.toMillis()) / 60000 and
compares passedMin < ISSUE_COOLDOWN_MIN; the division is exact over the
rationals here. -/
def cooldownHit (nowMs issuedMs cooldownMin : Int) : Prop :=
  ((nowMs - issuedMs : Int) : ℚ) / 60000 < (cooldownMin : ℚ)

/-- The rational comparison of cooldownHit coincides with the integer
comparison of milliseconds against minutes times 60000. -/
theorem cooldownHit_iff (nowMs issuedMs cooldownMin : Int) :
    cooldownHit nowMs issuedMs cooldownMin ↔ nowMs - issuedMs < cooldownMin * 60000 := by
  unfold cooldownHit
  rw [div_lt_iff₀ (by norm_num)]
  norm_cast

instance (nowMs issuedMs cooldownMin : Int) : Decidable (cooldownHit nowMs issuedMs cooldownMin) :=
  decidable_of_iff _ (cooldownHit_iff nowMs issuedMs cooldownMin).symm

/-- Availability of the composite Firestore indexes used by the three
guarded queries of handleEvent; false selects the catch branch that
falls back to a full scan. -/
structure IndexAvail where
  lastIdx : Bool
  dayIdx : Bool
  activeIdx : Bool
deriving DecidableEq, Repr

/-- The persistent state: the coupons collection and the dedup ledger of
the events collection (the set of event ids for which a dedup document
exists). -/
structure Store where
  coupons : List Coupon
  dedup : List String
deriving DecidableEq, Repr

/-- Observable outcome of handleEvent towards the messaging platform:
nothing (silent stop), one of the two refusal texts, or the coupon flex
message built from a coupon document. -/
inductive Reply where
  | cooldownNotice
  | dailyCapNotice
  | couponMsg (c : Coupon)
deriving DecidableEq, Repr

/-- String.prototype.trim, modelled on the character list. -/
def jsTrim (s : String) : String :=
  String.mk (((s.toList.dropWhile Char.isWhitespace).reverse.dropWhile Char.isWhitespace).reverse)

/-- Event id used for the dedup document:
(event.message and event.message.id) or event.replyToken. -/
def evtIdOf (e : MsgEvent) : String :=
  if e.messageId = "" then e.replyToken else e.messageId

/-- Stable insertion into a list sorted by issuedAt descending. -/
def insertIssuedDesc (c : Coupon) : List Coupon → List Coupon
  | [] => [c]
  | d :: ds => if c.issuedAt < d.issuedAt then d :: insertIssuedDesc c ds else c :: d :: ds

/-- Stable descending sort by issuedAt; models both the Firestore
orderBy('issuedAt','desc') server ordering and the JavaScript
sort((a,b) => b.issuedAt - a.issuedAt) of the fallback branches. -/
def sortByIssuedDesc (docs : List Coupon) : List Coupon :=
  docs.foldr insertIssuedDesc []

/-- Query where('userId','==',uid): the owner's coupons in store order. -/
def ownedBy (coupons : List Coupon) (uid : String) : List Coupon :=
  coupons.filter (fun c => c.userId = uid)

/-- Indexed cooldown lookup (src/api/index.js lines 314-318):
where userId == uid, orderBy issuedAt desc, limit 1. -/
def lastCouponIndexed (coupons : List Coupon) (uid : String) : Option Coupon :=
  (sortByIssuedDesc (ownedBy coupons uid)).head?

/-- Fallback cooldown lookup (src/api/index.js lines 323-329): full scan
of the owner's coupons, in-memory sort by issuedAt descending,
slice(0,1). -/
def lastCouponFallback (coupons : List Coupon) (uid : String) : Option Coupon :=
  ((sortByIssuedDesc (ownedBy coupons uid)).take 1).head?

/-- The cooldown lookup as dispatched on index availability. -/
def lastCouponQuery (idx : IndexAvail) (coupons : List Coupon) (uid : String) : Option Coupon :=
  if idx.lastIdx then lastCouponIndexed coupons uid else lastCouponFallback coupons uid

/-- Indexed daily count (src/api/index.js lines 357-360):
where userId == uid and issuedAt >= startTs, then size. -/
def issuedSinceCountIndexed (coupons : List Coupon) (uid : String) (startTs : Int) : Nat :=
  ((ownedBy coupons uid).filter (fun c => startTs ≤ c.issuedAt)).length

/-- Fallback daily count (src/api/index.js lines 365-369): full scan of
the owner's coupons, client-side filter on issuedAt.toMillis() >=
startTs.toMillis(), then length. -/
def issuedSinceCountFallback (coupons : List Coupon) (uid : String) (startTs : Int) : Nat :=
  ((ownedBy coupons uid).filter (fun c => c.issuedAt ≥ startTs)).length

/-- The daily count as dispatched on index availability. -/
def dayCountQuery (idx : IndexAvail) (coupons : List Coupon) (uid : String) (startTs : Int) : Nat :=
  if idx.dayIdx then issuedSinceCountIndexed coupons uid startTs
  else issuedSinceCountFallback coupons uid startTs

/-- Indexed reuse lookup (src/api/index.js lines 387-392): where
userId == uid and status == active, orderBy issuedAt desc, limit 1. -/
def lastActiveIndexed (coupons : List Coupon) (uid : String) : Option Coupon :=
  (sortByIssuedDesc ((ownedBy coupons uid).filter (fun c => c.status = "active"))).head?

/-- Primary reuse step (src/api/index.js lines 386-405): take the most
recent active coupon; if it is neither expired nor exhausted it becomes
couponDoc, otherwise its status is reconciled in place (consumed wins
over expired) and couponDoc stays null.  Returns (couponDoc, updated
collection). -/
def reuseStepIndexed (now : Int) (coupons : List Coupon) (uid : String) :
    Option Coupon × List Coupon :=
  match lastActiveIndexed coupons uid with
  | none => (none, coupons)
  | some d =>
    if ¬ d.expiresAt < now ∧ ¬ d.usageCount ≥ d.usageLimit then (some d, coupons)
    else (none, updateById coupons d.id
      { d with status := if d.usageCount ≥ d.usageLimit then "consumed" else "expired" })

/-- Fallback reuse step (src/api/index.js lines 406-427): full scan of
the owner's coupons, in-memory filter to the still redeemable active
ones, sort by issuedAt descending, first candidate or null.  No
reconciliation write happens on this path. -/
def reuseStepFallback (now : Int) (coupons : List Coupon) (uid : String) :
    Option Coupon × List Coupon :=
  let candidates := sortByIssuedDesc ((ownedBy coupons uid).filter
    (fun c => c.status = "active" ∧ now < c.expiresAt ∧ c.usageCount < c.usageLimit))
  (candidates.head?, coupons)

/-- Coupon document written by db.collection('coupons').add
(src/api/index.js lines 430-443). -/
def mkCoupon (id : Nat) (code uid : String) (now validHours : Int) : Coupon :=
  { id := id, code := code, userId := uid, issuedAt := now,
    expiresAt := now + validHours * 3600000,
    usageLimit := 2, usageCount := 0, status := "active", lastUsedAt := none }

/-- Reuse-or-issue stage of handleEvent (src/api/index.js lines
384-459): run the reuse step (indexed or fallback), then create a new
coupon if couponDoc is still null, then reply with the coupon flex
message. -/
def reuseOrIssue (cfg : Config) (idx : IndexAvail) (now : Int) (freshId : Nat)
    (freshCode : String) (s : Store) (uid : String) : Store × Option Reply :=
  match (if idx.activeIdx then reuseStepIndexed now s.coupons uid
         else reuseStepFallback now s.coupons uid) with
  | (some d, coupons1) => ({ s with coupons := coupons1 }, some (.couponMsg d))
  | (none, coupons1) =>
    ({ s with coupons := coupons1 ++ [mkCoupon freshId freshCode uid now cfg.validHours] },
      some (.couponMsg (mkCoupon freshId freshCode uid now cfg.validHours)))

/-- Daily-cap stage of handleEvent (src/api/index.js lines 348-382):
when the cap is enabled and the owner's count of coupons issued since
local midnight reaches it, refuse; otherwise continue with
reuse-or-issue. -/
def eligibilityAfterCooldown (cfg : Config) (idx : IndexAvail) (now dayStart : Int)
    (freshId : Nat) (freshCode : String) (s : Store) (uid : String) : Store × Option Reply :=
  if cfg.maxPerDay > 0 ∧ (dayCountQuery idx s.coupons uid dayStart : Int) ≥ cfg.maxPerDay then
    (s, some .dailyCapNotice)
  else reuseOrIssue cfg idx now freshId freshCode s uid

/-- Cooldown stage of handleEvent (src/api/index.js lines 309-346): if
the owner has a prior coupon and fewer than ISSUE_COOLDOWN_MINUTES
minutes passed since its issuedAt, refuse; otherwise continue.  The
source computes passedMin = (now - issuedAt) / 60000 as a number and
compares passedMin < ISSUE_COOLDOWN_MIN; the division is modelled
exactly over the rationals. -/
def eligibilityAfterDedup (cfg : Config) (idx : IndexAvail) (now dayStart : Int)
    (freshId : Nat) (freshCode : String) (s : Store) (uid : String) : Store × Option Reply :=
  match lastCouponQuery idx s.coupons uid with
  | some last =>
    if cooldownHit now last.issuedAt cfg.cooldownMin then
      (s, some .cooldownNotice)
    else eligibilityAfterCooldown cfg idx now dayStart freshId freshCode s uid
  | none => eligibilityAfterCooldown cfg idx now dayStart freshId freshCode s uid

/-- The webhook event handler handleEvent (src/api/index.js lines
284-460): type gate, keyword gate, dedup gate (existence check then
create of the dedup document), then cooldown, daily cap and
reuse-or-issue.  now is the Timestamp captured at line 295, dayStart
the local midnight of line 351, freshId and freshCode the generated
document id and code used if a coupon is created. -/
def handleEvent (cfg : Config) (idx : IndexAvail) (now dayStart : Int)
    (freshId : Nat) (freshCode : String) (s : Store) (e : MsgEvent) :
    Store × Option Reply :=
  if e.eventType ≠ "message" ∨ e.messageType ≠ "text" then (s, none)
  else if jsTrim e.text ∉ cfg.keywords then (s, none)
  else if evtIdOf e ∈ s.dedup then (s, none)
  else
    eligibilityAfterDedup cfg idx now dayStart freshId freshCode
      { s with dedup := evtIdOf e :: s.dedup } e.userId

/-! Helper lemmas shared by the claim theorems. -/

/-- Filtering with the negation of a predicate keeps length minus count. -/
theorem length_filter_not_countP (l : List Char) (p : Char → Bool) :
    (l.filter (fun ch => !(p ch))).length = l.length - l.countP p := by
  induction l with
  | nil => rfl
  | cons a t ih =>
    have hle := List.countP_le_length (p := p) (l := t)
    by_cases hp : p a = true
    · rw [List.filter_cons, List.countP_cons]
      simp [hp, ih]
    · rw [List.filter_cons, List.countP_cons]
      simp [hp, ih]
      omega

/-- Every index produced by b64Groups is below 64. -/
theorem b64Groups_lt (bytes : List Nat) : ∀ g ∈ b64Groups bytes, g < 64 := by
  intro g hg
  simp only [b64Groups, List.mem_map, List.mem_range] at hg
  obtain ⟨i, -, rfl⟩ := hg
  exact Nat.mod_lt _ (by norm_num)

/-- Every kept base64url character, once uppercased, is an ASCII capital
letter or digit. -/
theorem b64Char_kept_upper :
    ∀ g, g < 64 → (!(b64Char g == '-' || b64Char g == '_')) = true →
      ('A' ≤ Char.toUpper (b64Char g) ∧ Char.toUpper (b64Char g) ≤ 'Z') ∨
      ('0' ≤ Char.toUpper (b64Char g) ∧ Char.toUpper (b64Char g) ≤ '9') := by
  decide

/-! Claim C1.  The transactional step of POST /api/redeem evaluates the
checks in the claimed order and the success branch is as claimed, but the
corrective statuses of the EXPIRED and LIMIT_REACHED branches are NOT
persisted: the handler throws after buffering tx.update, which makes
Firestore abort the transaction and discard that very write. -/

/-- Concrete store for the C1 failing input: an active coupon whose
expiry (5) is before the request time (10). -/
def c1coupon : Coupon :=
  { id := 1, code := "ABCDEFGH", userId := "U1", issuedAt := 0,
    expiresAt := 5, usageLimit := 2, usageCount := 0, status := "active", lastUsedAt := none }

/-- C1 (code bug, failing input): redeeming an active coupon past its
expiry reports the EXPIRED outcome, and the transaction body did submit
a status update to expired via tx.update, but the thrown error aborts
the transaction, so the stored coupon still has status active — the
claimed persistence of status expired in the same transaction does not
happen.  The same applies to the LIMIT_REACHED branch. -/
theorem C1_expired_status_not_persisted :
    apiRedeem "" 10 [c1coupon] (some "ABCDEFGH") none = (.txError .expired, [c1coupon]) ∧
    c1coupon.status = "active" ∧
    redeemTxBody 10 c1coupon = .error (.expired, { c1coupon with status := "expired" }) := by
  refine ⟨by decide, rfl, rfl⟩

/-! Claim C2.  Concurrent redemptions are serialized by the Firestore
transaction (each one re-reads the document inside the transaction and
conflicting writers are serialized), so two concurrent redeem calls are
modelled as the two transactions running in sequence in either order;
both orders are instances of the statement below with n1 and n2 the two
capture times. -/

/-- State of a coupon after a successful redeeming transaction that
exhausted its last use. -/
def consumedAfter (c : Coupon) (n : Int) : Coupon :=
  { c with
      usageCount := c.usageCount + 1
      lastUsedAt := some n
      status := "consumed" }

/-- C2: on a coupon with exactly one remaining use, of two serialized
redeem transactions the first succeeds (consuming the coupon) and the
second fails with the not-active (already consumed) outcome; the final
usage count equals the limit and is never exceeded. -/
theorem C2_redeem_exclusivity (c : Coupon) (n1 n2 : Int)
    (hA : c.status = "active") (hE : ¬ c.expiresAt < n1)
    (hL : c.usageCount + 1 = c.usageLimit) :
    (runRedeemTransaction n1 c).1 = none ∧
    (runRedeemTransaction n1 c).2.status = "consumed" ∧
    (runRedeemTransaction n1 c).2.usageCount = c.usageLimit ∧
    (runRedeemTransaction n2 (runRedeemTransaction n1 c).2).1 = some .notActive ∧
    (runRedeemTransaction n2 (runRedeemTransaction n1 c).2).2.usageCount = c.usageLimit := by
  have h1 : ¬ (c.status ≠ "active") := by simp [hA]
  have h2 : ¬ (c.usageCount ≥ c.usageLimit) := by omega
  have h3 : c.usageCount + 1 ≥ c.usageLimit := by omega
  have hstep : runRedeemTransaction n1 c = (none, consumedAfter c n1) := by
    simp only [runRedeemTransaction, redeemTxBody, if_neg h1, if_neg hE, if_neg h2, if_pos h3,
      consumedAfter]
  have hsecond : runRedeemTransaction n2 (consumedAfter c n1)
      = (some .notActive, consumedAfter c n1) := by
    simp [runRedeemTransaction, redeemTxBody, consumedAfter]
  rw [hstep, hsecond]
  exact ⟨rfl, rfl, by simp [consumedAfter]; omega, rfl, by simp [consumedAfter]; omega⟩

/-- Witness for C2 at a concrete coupon with usageLimit 2 and
usageCount 1. -/
theorem C2_redeem_exclusivity_witness :
    let c : Coupon :=
      { id := 3, code := "QQQQQQQQ", userId := "U2", issuedAt := 0,
        expiresAt := 100, usageLimit := 2, usageCount := 1, status := "active",
        lastUsedAt := none }
    (runRedeemTransaction 10 c).1 = none ∧
    (runRedeemTransaction 10 c).2.status = "consumed" ∧
    (runRedeemTransaction 10 c).2.usageCount = c.usageLimit ∧
    (runRedeemTransaction 11 (runRedeemTransaction 10 c).2).1 = some .notActive ∧
    (runRedeemTransaction 11 (runRedeemTransaction 10 c).2).2.usageCount = c.usageLimit :=
  C2_redeem_exclusivity _ 10 11 rfl (by decide) (by decide)

/-! Claim C9.  Usage-count invariants of the three writing operations. -/

/-- C9: coupon creation starts at usageCount 0 within bounds; the
reconciliation writes (status-only updates) leave usageCount untouched;
the redeeming transaction never decreases usageCount and keeps
0 ≤ usageCount ≤ usageLimit. -/
theorem C9_usage_invariant (now : Int) (c : Coupon)
    (h0 : 0 ≤ c.usageCount) (h1 : c.usageCount ≤ c.usageLimit) :
    (∀ i code uid t vh, (mkCoupon i code uid t vh).usageCount = 0 ∧
      0 ≤ (mkCoupon i code uid t vh).usageCount ∧
      (mkCoupon i code uid t vh).usageCount ≤ (mkCoupon i code uid t vh).usageLimit) ∧
    (∀ st, ({ c with status := st } : Coupon).usageCount = c.usageCount) ∧
    (c.usageCount ≤ (runRedeemTransaction now c).2.usageCount ∧
      0 ≤ (runRedeemTransaction now c).2.usageCount ∧
      (runRedeemTransaction now c).2.usageCount ≤ (runRedeemTransaction now c).2.usageLimit) := by
  refine ⟨fun i code uid t vh => by simp [mkCoupon], fun st => rfl, ?_⟩
  by_cases hs : c.status ≠ "active"
  · simp [runRedeemTransaction, redeemTxBody, hs]; omega
  by_cases he : c.expiresAt < now
  · simp [runRedeemTransaction, redeemTxBody, hs, he]; omega
  by_cases hx : c.usageCount ≥ c.usageLimit
  · simp [runRedeemTransaction, redeemTxBody, hs, he, hx]; omega
  · simp [runRedeemTransaction, redeemTxBody, hs, he, hx]; omega

/-- Witness for C9 at a concrete half-used coupon. -/
theorem C9_usage_invariant_witness :
    let c : Coupon :=
      { id := 4, code := "RRRRRRRR", userId := "U3", issuedAt := 0,
        expiresAt := 100, usageLimit := 2, usageCount := 1, status := "active",
        lastUsedAt := none }
    (∀ i code uid t vh, (mkCoupon i code uid t vh).usageCount = 0 ∧
      0 ≤ (mkCoupon i code uid t vh).usageCount ∧
      (mkCoupon i code uid t vh).usageCount ≤ (mkCoupon i code uid t vh).usageLimit) ∧
    (∀ st, ({ c with status := st } : Coupon).usageCount = c.usageCount) ∧
    (c.usageCount ≤ (runRedeemTransaction 7 c).2.usageCount ∧
      0 ≤ (runRedeemTransaction 7 c).2.usageCount ∧
      (runRedeemTransaction 7 c).2.usageCount ≤ (runRedeemTransaction 7 c).2.usageLimit) :=
  C9_usage_invariant 7 _ (by decide) (by decide)

/-! Claim C4.  The claim asserts trim-and-uppercase normalization and a
case-insensitive lookup; the handler performs neither: the supplied code
is used verbatim in a Firestore equality query, which is exact and
case-sensitive. -/

/-- Stored coupon for the C4 counterexample; its code is the uppercase
form genCode produces. -/
def c4coupon : Coupon :=
  { id := 1, code := "WXYZABCD", userId := "U1", issuedAt := 0,
    expiresAt := 1000, usageLimit := 2, usageCount := 0, status := "active", lastUsedAt := none }

/-- C4 counterexample: a redeem whose supplied code differs from the
stored code only in letter case, or only by surrounding whitespace,
fails with NOT_FOUND, while the exact code is found — so the lookup is
neither normalized nor case-insensitive. -/
theorem C4_counterexample :
    apiRedeem "" 5 [c4coupon] (some "wxyzabcd") none = (.notFound, [c4coupon]) ∧
    apiRedeem "" 5 [c4coupon] (some " WXYZABCD ") none = (.notFound, [c4coupon]) ∧
    "wxyzabcd".toList.map Char.toUpper = c4coupon.code.toList ∧
    jsTrim " WXYZABCD " = c4coupon.code ∧
    (apiRedeem "" 5 [c4coupon] (some "WXYZABCD") none).1 ≠ .notFound := by
  decide

/-- C4 amended: the redeem handler performs no normalization and the
lookup is an exact string match: with a nonempty code and passing staff
auth, the handler reports NOT_FOUND exactly when no stored coupon's code
equals the supplied string character for character. -/
theorem C4_exact_lookup (staffPassCfg : String) (now : Int) (coupons : List Coupon)
    (codeStr : String) (staffPass : Option String)
    (hc : codeStr ≠ "")
    (hp : ¬ (staffPassCfg ≠ "" ∧ staffPass ≠ some staffPassCfg)) :
    (apiRedeem staffPassCfg now coupons (some codeStr) staffPass).1 = .notFound ↔
      ∀ c ∈ coupons, c.code ≠ codeStr := by
  simp only [apiRedeem, if_neg hc, if_neg hp]
  rcases hfind : findByCode coupons codeStr with _ | c
  · simp only [hfind]
    simp only [findByCode, List.find?_eq_none, decide_eq_true_eq] at hfind
    simpa using hfind
  · simp only [hfind]
    have hmem : c ∈ coupons := List.mem_of_find?_eq_some hfind
    have hcode : c.code = codeStr := by
      have := List.find?_some hfind
      simpa using this
    constructor
    · intro habs
      rcases hrun : runRedeemTransaction now c with ⟨o, c'⟩
      rcases o with _ | e <;> simp [hrun] at habs
    · intro hall
      exact absurd hcode (hall c hmem)

/-- Witness for C4 amended at a concrete store, in both directions. -/
theorem C4_exact_lookup_witness :
    ((apiRedeem "" 5 [c4coupon] (some "wxyzabcd") none).1 = .notFound ↔
      ∀ c ∈ [c4coupon], c.code ≠ "wxyzabcd") ∧
    ((apiRedeem "" 5 [c4coupon] (some "WXYZABCD") none).1 = .notFound ↔
      ∀ c ∈ [c4coupon], c.code ≠ "WXYZABCD") :=
  ⟨C4_exact_lookup "" 5 [c4coupon] "wxyzabcd" none (by decide) (by simp),
    C4_exact_lookup "" 5 [c4coupon] "WXYZABCD" none (by decide) (by simp)⟩

/-! Claim C10.  genCode is base64url over seven random bytes with dash
and underscore stripped, sliced to 10 and uppercased: the length is not
fixed (it can drop below 8, even to 1) and the uppercased alphabet is
the full A-Z plus 0-9, which contains the ambiguous 0, O, 1 and I. -/

/-- C10 counterexample: seven 0xFF bytes encode to nine underscores and
a w, so genCode returns the single character W (length 1, not 8-10); and
a first byte 0x38 puts the ambiguous letter O in the code. -/
theorem C10_counterexample :
    genCode (List.replicate 7 255) = "W" ∧
    (genCode (List.replicate 7 255)).length = 1 ∧
    ¬ 8 ≤ (genCode (List.replicate 7 255)).length ∧
    genCode (56 :: List.replicate 6 0) = "OAAAAAAAAA" ∧
    'O' ∈ (genCode (56 :: List.replicate 6 0)).toList := by
  refine ⟨by decide, by decide, by decide, by decide, by decide⟩

/-- C10 amended: for seven input bytes the base64url encoding has
exactly 10 characters; the generated code keeps 10 minus the number of
dropped dash and underscore characters (hence at most 10, with no fixed
lower bound of 8), and every character of the code is an ASCII capital
letter or a digit — an alphabet that includes 0, O, 1 and I rather than
excluding them. -/
theorem C10_genCode_shape (bytes : List Nat) (h : bytes.length = 7) :
    (b64chars bytes).length = 10 ∧
    (genCode bytes).length
      = 10 - (b64chars bytes).countP (fun ch => ch == '-' || ch == '_') ∧
    (genCode bytes).length ≤ 10 ∧
    ∀ ch ∈ (genCode bytes).toList,
      ('A' ≤ ch ∧ ch ≤ 'Z') ∨ ('0' ≤ ch ∧ ch ≤ '9') := by
  have hb : (b64chars bytes).length = 10 := by
    simp [b64chars, b64Groups, h]
  have hflt : ((b64chars bytes).filter
      (fun ch => !(ch == '-' || ch == '_'))).length
      = 10 - (b64chars bytes).countP (fun ch => ch == '-' || ch == '_') := by
    rw [length_filter_not_countP, hb]
  have hlen : (genCode bytes).length
      = 10 - (b64chars bytes).countP (fun ch => ch == '-' || ch == '_') := by
    show (genCodeChars bytes).length = _
    rw [genCodeChars, List.length_map, List.length_take, hflt]
    omega
  refine ⟨hb, hlen, by omega, ?_⟩
  intro ch hch
  have hch' : ch ∈ genCodeChars bytes := hch
  rw [genCodeChars] at hch'
  rcases List.mem_map.mp hch' with ⟨a, ha, rfl⟩
  have ha' : a ∈ (b64chars bytes).filter (fun ch => !(ch == '-' || ch == '_')) :=
    List.take_subset 10 _ ha
  rcases List.mem_filter.mp ha' with ⟨haMem, haKeep⟩
  rcases List.mem_map.mp haMem with ⟨g, hgMem, rfl⟩
  exact b64Char_kept_upper g (b64Groups_lt bytes g hgMem) haKeep

/-- Witness for C10 amended at the all-zero byte vector. -/
theorem C10_genCode_shape_witness :
    (b64chars (List.replicate 7 0)).length = 10 ∧
    (genCode (List.replicate 7 0)).length
      = 10 - (b64chars (List.replicate 7 0)).countP (fun ch => ch == '-' || ch == '_') ∧
    (genCode (List.replicate 7 0)).length ≤ 10 ∧
    ∀ ch ∈ (genCode (List.replicate 7 0)).toList,
      ('A' ≤ ch ∧ ch ≤ 'Z') ∨ ('0' ≤ ch ∧ ch ≤ '9') :=
  C10_genCode_shape (List.replicate 7 0) (by decide)

/-! Helper lemmas about the stages of handleEvent. -/

/-- Under passing type, keyword and dedup gates, handleEvent is the
post-dedup pipeline run on the store with the event id claimed. -/
theorem handleEvent_eq_afterDedup (cfg : Config) (idx : IndexAvail) (now dayStart : Int)
    (fid : Nat) (fc : String) (s : Store) (e : MsgEvent)
    (hTy : e.eventType = "message") (hMt : e.messageType = "text")
    (hKw : jsTrim e.text ∈ cfg.keywords) (hDd : evtIdOf e ∉ s.dedup) :
    handleEvent cfg idx now dayStart fid fc s e
      = eligibilityAfterDedup cfg idx now dayStart fid fc
          { s with dedup := evtIdOf e :: s.dedup } e.userId := by
  simp [handleEvent, hTy, hMt, hKw, hDd]

/-- The reuse-or-issue stage never touches the dedup ledger. -/
theorem reuseOrIssue_dedup (cfg : Config) (idx : IndexAvail) (now : Int)
    (fid : Nat) (fc : String) (s : Store) (uid : String) :
    (reuseOrIssue cfg idx now fid fc s uid).1.dedup = s.dedup := by
  unfold reuseOrIssue
  split <;> rfl

/-- The daily-cap stage never touches the dedup ledger. -/
theorem afterCooldown_dedup (cfg : Config) (idx : IndexAvail) (now dayStart : Int)
    (fid : Nat) (fc : String) (s : Store) (uid : String) :
    (eligibilityAfterCooldown cfg idx now dayStart fid fc s uid).1.dedup = s.dedup := by
  unfold eligibilityAfterCooldown
  split
  · rfl
  · exact reuseOrIssue_dedup cfg idx now fid fc s uid

/-- The whole post-dedup pipeline never touches the dedup ledger. -/
theorem afterDedup_dedup (cfg : Config) (idx : IndexAvail) (now dayStart : Int)
    (fid : Nat) (fc : String) (s : Store) (uid : String) :
    (eligibilityAfterDedup cfg idx now dayStart fid fc s uid).1.dedup = s.dedup := by
  unfold eligibilityAfterDedup
  cases hq : lastCouponQuery idx s.coupons uid with
  | none => simp only [hq]; exact afterCooldown_dedup cfg idx now dayStart fid fc s uid
  | some last =>
    simp only [hq]
    split
    · rfl
    · exact afterCooldown_dedup cfg idx now dayStart fid fc s uid

/-- Under passing gates and with cooldown and daily cap not hit, the
post-dedup pipeline runs the reuse-or-issue stage. -/
theorem afterDedup_eq_reuseOrIssue (cfg : Config) (idx : IndexAvail) (now dayStart : Int)
    (fid : Nat) (fc : String) (s : Store) (uid : String)
    (hCd : ∀ last, lastCouponQuery idx s.coupons uid = some last →
      ¬ cooldownHit now last.issuedAt cfg.cooldownMin)
    (hCap : ¬ (cfg.maxPerDay > 0 ∧
      (dayCountQuery idx s.coupons uid dayStart : Int) ≥ cfg.maxPerDay)) :
    eligibilityAfterDedup cfg idx now dayStart fid fc s uid
      = reuseOrIssue cfg idx now fid fc s uid := by
  unfold eligibilityAfterDedup eligibilityAfterCooldown
  cases hq : lastCouponQuery idx s.coupons uid with
  | none => simp [hq, hCap]
  | some last => simp [hq, hCd last hq, hCap]

/-! Claim C5.  The claim puts the dedup claim before the keyword gate;
in handleEvent the keyword gate runs first, so an event whose text does
not match a trigger phrase is never claimed in the dedup ledger. -/

/-- Configuration fixture with the default trigger phrase. -/
def kwCfg : Config :=
  { keywords := ["クーポン"], validHours := 48, cooldownMin := 1440, maxPerDay := 1 }

/-- Index-availability fixture with every index present. -/
def allIdx : IndexAvail := { lastIdx := true, dayIdx := true, activeIdx := true }

/-- Text-message event fixture whose text matches no trigger phrase. -/
def c5event : MsgEvent :=
  { eventType := "message", messageType := "text", messageId := "m5", replyToken := "r5",
    userId := "U1", text := "hello" }

/-- C5 counterexample: a delivered text event whose text does not match
the keyword set stops silently with an empty dedup ledger — its eventId
is never claimed, contradicting tryClaim-before-keyword-gate. -/
theorem C5_counterexample :
    handleEvent kwCfg allIdx 0 0 9 "NEWCODE1" ⟨[], []⟩ c5event = (⟨[], []⟩, none) ∧
    (handleEvent kwCfg allIdx 0 0 9 "NEWCODE1" ⟨[], []⟩ c5event).1.dedup = [] ∧
    c5event.eventType = "message" ∧ c5event.messageType = "text" := by
  refine ⟨by decide, by decide, rfl, rfl⟩

/-- C5 amended: the keyword gate is evaluated before dedup.  For every
delivered text event: if the trimmed text matches a trigger phrase the
event id ends up claimed in the dedup ledger, and if it was already
claimed the handler stops silently without any change; if the text does
not match, the handler stops silently without claiming the event id. -/
theorem C5_keyword_gate_before_dedup (cfg : Config) (idx : IndexAvail) (now dayStart : Int)
    (fid : Nat) (fc : String) (s : Store) (e : MsgEvent)
    (hTy : e.eventType = "message") (hMt : e.messageType = "text") :
    (jsTrim e.text ∈ cfg.keywords →
      evtIdOf e ∈ (handleEvent cfg idx now dayStart fid fc s e).1.dedup) ∧
    (jsTrim e.text ∈ cfg.keywords → evtIdOf e ∈ s.dedup →
      handleEvent cfg idx now dayStart fid fc s e = (s, none)) ∧
    (jsTrim e.text ∉ cfg.keywords →
      handleEvent cfg idx now dayStart fid fc s e = (s, none)) := by
  refine ⟨?_, ?_, ?_⟩
  · intro hKw
    by_cases hDd : evtIdOf e ∈ s.dedup
    · have : handleEvent cfg idx now dayStart fid fc s e = (s, none) := by
        simp [handleEvent, hTy, hMt, hKw, hDd]
      rw [this]
      exact hDd
    · rw [handleEvent_eq_afterDedup cfg idx now dayStart fid fc s e hTy hMt hKw hDd,
        afterDedup_dedup]
      exact List.mem_cons_self _ _
  · intro hKw hDd
    simp [handleEvent, hTy, hMt, hKw, hDd]
  · intro hKw
    simp [handleEvent, hTy, hMt, hKw]

/-- Matching-text event fixture for the C5 and C6 witnesses. -/
def kwEvent : MsgEvent :=
  { eventType := "message", messageType := "text", messageId := "m6", replyToken := "r6",
    userId := "U1", text := "クーポン" }

/-- Witness for C5 amended at a concrete matching event and empty store. -/
theorem C5_keyword_gate_before_dedup_witness :
    (jsTrim kwEvent.text ∈ kwCfg.keywords →
      evtIdOf kwEvent ∈ (handleEvent kwCfg allIdx 0 0 9 "NEWCODE1" ⟨[], []⟩ kwEvent).1.dedup) ∧
    (jsTrim kwEvent.text ∈ kwCfg.keywords → evtIdOf kwEvent ∈ (⟨[], []⟩ : Store).dedup →
      handleEvent kwCfg allIdx 0 0 9 "NEWCODE1" ⟨[], []⟩ kwEvent = (⟨[], []⟩, none)) ∧
    (jsTrim kwEvent.text ∉ kwCfg.keywords →
      handleEvent kwCfg allIdx 0 0 9 "NEWCODE1" ⟨[], []⟩ kwEvent = (⟨[], []⟩, none)) :=
  C5_keyword_gate_before_dedup kwCfg allIdx 0 0 9 "NEWCODE1" ⟨[], []⟩ kwEvent rfl rfl

/-! Claim C6.  Sequential replay of the same event is a no-op. -/

/-- C6: running handleEvent a second time on the same event, starting
from the state the first run produced, changes nothing and sends no
reply — the second run performs no coupon-store writes, creates no
coupon and produces no message, whatever the first run did. -/
theorem C6_dedup_idempotent (cfg : Config) (idx : IndexAvail)
    (n1 d1 : Int) (f1 : Nat) (g1 : String) (n2 d2 : Int) (f2 : Nat) (g2 : String)
    (s : Store) (e : MsgEvent) :
    handleEvent cfg idx n2 d2 f2 g2 (handleEvent cfg idx n1 d1 f1 g1 s e).1 e
      = ((handleEvent cfg idx n1 d1 f1 g1 s e).1, none) := by
  by_cases hTy : e.eventType = "message"
  case neg =>
    have h1 : handleEvent cfg idx n1 d1 f1 g1 s e = (s, none) := by simp [handleEvent, hTy]
    rw [h1]
    simp [handleEvent, hTy]
  by_cases hMt : e.messageType = "text"
  case neg =>
    have h1 : handleEvent cfg idx n1 d1 f1 g1 s e = (s, none) := by simp [handleEvent, hMt]
    rw [h1]
    simp [handleEvent, hMt]
  by_cases hKw : jsTrim e.text ∈ cfg.keywords
  case neg =>
    have h1 : handleEvent cfg idx n1 d1 f1 g1 s e = (s, none) := by
      simp [handleEvent, hTy, hMt, hKw]
    rw [h1]
    simp [handleEvent, hTy, hMt, hKw]
  by_cases hDd : evtIdOf e ∈ s.dedup
  · have h1 : handleEvent cfg idx n1 d1 f1 g1 s e = (s, none) := by
      simp [handleEvent, hTy, hMt, hKw, hDd]
    rw [h1]
    simp [handleEvent, hTy, hMt, hKw, hDd]
  · have hmem : evtIdOf e ∈ (handleEvent cfg idx n1 d1 f1 g1 s e).1.dedup := by
      rw [handleEvent_eq_afterDedup cfg idx n1 d1 f1 g1 s e hTy hMt hKw hDd, afterDedup_dedup]
      exact List.mem_cons_self _ _
    generalize hX : (handleEvent cfg idx n1 d1 f1 g1 s e).1 = X at hmem ⊢
    simp [handleEvent, hTy, hMt, hKw, hmem]

/-! Claim C7.  Cooldown refusal and pass-through. -/

/-- C7: under passing gates, when the owner's most recent coupon was
issued less than the cooldown window ago (in the source's rational
minutes arithmetic) the handler replies with the already-issued-recently
notice and leaves the coupon collection untouched; once the cooldown has
elapsed it proceeds to the daily-cap and reuse-or-issue stages. -/
theorem C7_cooldown_enforcement (cfg : Config) (idx : IndexAvail) (now dayStart : Int)
    (fid : Nat) (fc : String) (s : Store) (e : MsgEvent) (last : Coupon)
    (hTy : e.eventType = "message") (hMt : e.messageType = "text")
    (hKw : jsTrim e.text ∈ cfg.keywords) (hDd : evtIdOf e ∉ s.dedup)
    (hLast : lastCouponQuery idx s.coupons e.userId = some last) :
    (cooldownHit now last.issuedAt cfg.cooldownMin →
      handleEvent cfg idx now dayStart fid fc s e
        = ({ s with dedup := evtIdOf e :: s.dedup }, some .cooldownNotice)) ∧
    (¬ cooldownHit now last.issuedAt cfg.cooldownMin →
      handleEvent cfg idx now dayStart fid fc s e
        = eligibilityAfterCooldown cfg idx now dayStart fid fc
            { s with dedup := evtIdOf e :: s.dedup } e.userId) := by
  rw [handleEvent_eq_afterDedup cfg idx now dayStart fid fc s e hTy hMt hKw hDd]
  constructor <;> intro h <;> simp [eligibilityAfterDedup, hLast, h]

/-- Coupon fixture for the C7 witness: issued at time 0. -/
def w7c : Coupon :=
  { id := 1, code := "OLDCODE1", userId := "U1", issuedAt := 0,
    expiresAt := 200000000, usageLimit := 2, usageCount := 0, status := "active",
    lastUsedAt := none }

/-- Event fixture for the C7 witness. -/
def w7e : MsgEvent :=
  { eventType := "message", messageType := "text", messageId := "m7", replyToken := "r7",
    userId := "U1", text := "クーポン" }

/-- Witness for C7 at a concrete store holding one coupon issued at 0,
with the request one minute later. -/
theorem C7_cooldown_enforcement_witness :
    (cooldownHit 60000 w7c.issuedAt kwCfg.cooldownMin →
      handleEvent kwCfg allIdx 60000 0 9 "X" ⟨[w7c], []⟩ w7e
        = ({ (⟨[w7c], []⟩ : Store) with dedup := evtIdOf w7e :: (⟨[w7c], []⟩ : Store).dedup },
            some .cooldownNotice)) ∧
    (¬ cooldownHit 60000 w7c.issuedAt kwCfg.cooldownMin →
      handleEvent kwCfg allIdx 60000 0 9 "X" ⟨[w7c], []⟩ w7e
        = eligibilityAfterCooldown kwCfg allIdx 60000 0 9 "X"
            { (⟨[w7c], []⟩ : Store) with dedup := evtIdOf w7e :: (⟨[w7c], []⟩ : Store).dedup }
            w7e.userId) :=
  C7_cooldown_enforcement kwCfg allIdx 60000 0 9 "X" ⟨[w7c], []⟩ w7e w7c rfl rfl
    (by decide) (by decide) (by decide)

/-! Claim C3.  Reuse of a still-redeemable coupon versus reconciliation
plus reissue, on the primary (indexed) reuse path. -/

/-- C3: for a trigger that passes the type, keyword, dedup, cooldown and
daily-cap stages with the active-coupon index available: if the owner's
most recent active coupon is unexpired and non-exhausted, the handler
replies with exactly that coupon and writes nothing to the coupon
collection; if it is expired or exhausted, its status is reconciled
(consumed when exhausted, else expired) and a brand-new coupon is
appended and replied, with usageLimit 2, usageCount 0, status active and
expiresAt = now plus the validity window. -/
theorem C3_reuse_vs_reissue (cfg : Config) (idx : IndexAvail) (now dayStart : Int)
    (fid : Nat) (fc : String) (s : Store) (e : MsgEvent)
    (hIdx : idx.activeIdx = true)
    (hTy : e.eventType = "message") (hMt : e.messageType = "text")
    (hKw : jsTrim e.text ∈ cfg.keywords) (hDd : evtIdOf e ∉ s.dedup)
    (hCd : ∀ last, lastCouponQuery idx s.coupons e.userId = some last →
      ¬ cooldownHit now last.issuedAt cfg.cooldownMin)
    (hCap : ¬ (cfg.maxPerDay > 0 ∧
      (dayCountQuery idx s.coupons e.userId dayStart : Int) ≥ cfg.maxPerDay)) :
    (∀ d, lastActiveIndexed s.coupons e.userId = some d →
      ¬ d.expiresAt < now → ¬ d.usageCount ≥ d.usageLimit →
      handleEvent cfg idx now dayStart fid fc s e
        = ({ s with dedup := evtIdOf e :: s.dedup }, some (.couponMsg d))) ∧
    (∀ d, lastActiveIndexed s.coupons e.userId = some d →
      (d.expiresAt < now ∨ d.usageCount ≥ d.usageLimit) →
      handleEvent cfg idx now dayStart fid fc s e
        = ({ s with
               coupons :=
                 updateById s.coupons d.id
                     { d with
                         status :=
                           if d.usageCount ≥ d.usageLimit then "consumed" else "expired" }
                   ++ [mkCoupon fid fc e.userId now cfg.validHours],
               dedup := evtIdOf e :: s.dedup },
            some (.couponMsg (mkCoupon fid fc e.userId now cfg.validHours)))) ∧
    (mkCoupon fid fc e.userId now cfg.validHours).usageLimit = 2 ∧
    (mkCoupon fid fc e.userId now cfg.validHours).usageCount = 0 ∧
    (mkCoupon fid fc e.userId now cfg.validHours).status = "active" ∧
    (mkCoupon fid fc e.userId now cfg.validHours).expiresAt = now + cfg.validHours * 3600000 := by
  have hmain : handleEvent cfg idx now dayStart fid fc s e
      = reuseOrIssue cfg idx now fid fc { s with dedup := evtIdOf e :: s.dedup } e.userId := by
    rw [handleEvent_eq_afterDedup cfg idx now dayStart fid fc s e hTy hMt hKw hDd]
    exact afterDedup_eq_reuseOrIssue cfg idx now dayStart fid fc _ e.userId hCd hCap
  refine ⟨?_, ?_, rfl, rfl, rfl, rfl⟩
  · intro d hd hne hnc
    rw [hmain]
    unfold reuseOrIssue reuseStepIndexed
    simp [hIdx, hd, hne, hnc]
  · intro d hd hfail
    rw [hmain]
    unfold reuseOrIssue reuseStepIndexed
    have hsplit : ¬ (now ≤ d.expiresAt ∧ d.usageCount < d.usageLimit) := by
      rcases hfail with h | h <;> omega
    simp [hIdx, hd, hsplit]

/-- Coupon fixture for the C3 witness: an old coupon owned by U1,
redeemable at the witness time. -/
def w3c : Coupon :=
  { id := 1, code := "OLDCODE3", userId := "U1", issuedAt := 0,
    expiresAt := 200000000, usageLimit := 2, usageCount := 0, status := "active",
    lastUsedAt := none }

/-- Event fixture for the C3 witness. -/
def w3e : MsgEvent :=
  { eventType := "message", messageType := "text", messageId := "m3", replyToken := "r3",
    userId := "U1", text := "クーポン" }

/-- Witness for C3 at a concrete store (one U1 coupon issued at 0,
trigger at 90000000 ms = 1500 min later, past the 1440-minute cooldown,
with the day starting at 89000000 so the daily count is 0). -/
theorem C3_reuse_vs_reissue_witness :
    (∀ d, lastActiveIndexed [w3c] w3e.userId = some d →
      ¬ d.expiresAt < 90000000 → ¬ d.usageCount ≥ d.usageLimit →
      handleEvent kwCfg allIdx 90000000 89000000 9 "NEWCODE3" ⟨[w3c], []⟩ w3e
        = ({ (⟨[w3c], []⟩ : Store) with dedup := evtIdOf w3e :: (⟨[w3c], []⟩ : Store).dedup },
            some (.couponMsg d))) ∧
    (∀ d, lastActiveIndexed [w3c] w3e.userId = some d →
      (d.expiresAt < 90000000 ∨ d.usageCount ≥ d.usageLimit) →
      handleEvent kwCfg allIdx 90000000 89000000 9 "NEWCODE3" ⟨[w3c], []⟩ w3e
        = ({ (⟨[w3c], []⟩ : Store) with
               coupons :=
                 updateById [w3c] d.id
                     { d with
                         status :=
                           if d.usageCount ≥ d.usageLimit then "consumed" else "expired" }
                   ++ [mkCoupon 9 "NEWCODE3" w3e.userId 90000000 kwCfg.validHours],
               dedup := evtIdOf w3e :: (⟨[w3c], []⟩ : Store).dedup },
            some (.couponMsg (mkCoupon 9 "NEWCODE3" w3e.userId 90000000 kwCfg.validHours)))) ∧
    (mkCoupon 9 "NEWCODE3" w3e.userId 90000000 kwCfg.validHours).usageLimit = 2 ∧
    (mkCoupon 9 "NEWCODE3" w3e.userId 90000000 kwCfg.validHours).usageCount = 0 ∧
    (mkCoupon 9 "NEWCODE3" w3e.userId 90000000 kwCfg.validHours).status = "active" ∧
    (mkCoupon 9 "NEWCODE3" w3e.userId 90000000 kwCfg.validHours).expiresAt
      = 90000000 + kwCfg.validHours * 3600000 :=
  C3_reuse_vs_reissue kwCfg allIdx 90000000 89000000 9 "NEWCODE3" ⟨[w3c], []⟩ w3e
    rfl rfl rfl (by decide) (by decide)
    (by
      intro last hl
      have h0 : lastCouponQuery allIdx [w3c] w3e.userId = some w3c := by decide
      rw [h0] at hl
      cases hl
      decide)
    (by decide)

/-! Claim C8.  Equivalence of the fallback query paths with the indexed
ones: it holds for the cooldown lookup and the daily count, but the
reuse fallback is not equivalent to the indexed reuse step. -/

/-- Older redeemable active coupon of owner U1 for the C8 store. -/
def c8A : Coupon :=
  { id := 1, code := "AAAA2222", userId := "U1", issuedAt := 0,
    expiresAt := 100, usageLimit := 2, usageCount := 0, status := "active", lastUsedAt := none }

/-- Newer active but already expired coupon of owner U1 for the C8
store (expiry 60, before the query time 70). -/
def c8B : Coupon :=
  { id := 2, code := "BBBB3333", userId := "U1", issuedAt := 50,
    expiresAt := 60, usageLimit := 2, usageCount := 0, status := "active", lastUsedAt := none }

/-- C8 counterexample: on the store holding c8A and c8B at time 70, the
indexed reuse path reconciles the newest active coupon c8B to expired
and reports no reusable coupon (a new one would be issued), while the
fallback path performs no write and reports the older coupon c8A for
reuse — different result and different state changes. -/
theorem C8_counterexample :
    reuseStepIndexed 70 [c8A, c8B] "U1" ≠ reuseStepFallback 70 [c8A, c8B] "U1" ∧
    (reuseStepIndexed 70 [c8A, c8B] "U1").1 = none ∧
    (reuseStepIndexed 70 [c8A, c8B] "U1").2 ≠ [c8A, c8B] ∧
    (reuseStepFallback 70 [c8A, c8B] "U1").1 = some c8A ∧
    (reuseStepFallback 70 [c8A, c8B] "U1").2 = [c8A, c8B] := by
  refine ⟨by decide, by decide, by decide, by decide, by decide⟩

/-- Taking one element then the head is the same as taking the head. -/
theorem head?_take_one (l : List Coupon) : (l.take 1).head? = l.head? := by
  cases l <;> simp

/-- C8 amended: the cooldown-lookup fallback and the daily-count
fallback compute exactly the results of their indexed queries on every
store; the reuse fallback does not preserve the indexed path's
semantics — at the concrete C8 store it performs no reconciliation
write and selects an older redeemable coupon where the indexed path
reconciles the newest active coupon and selects none. -/
theorem C8_fallback_equivalences :
    (∀ coupons uid, lastCouponFallback coupons uid = lastCouponIndexed coupons uid) ∧
    (∀ coupons uid startTs,
      issuedSinceCountFallback coupons uid startTs
        = issuedSinceCountIndexed coupons uid startTs) ∧
    reuseStepIndexed 70 [c8A, c8B] "U1"
      = (none, [c8A, { c8B with status := "expired" }]) ∧
    reuseStepFallback 70 [c8A, c8B] "U1" = (some c8A, [c8A, c8B]) := by
  refine ⟨?_, ?_, by decide, by decide⟩
  · intro coupons uid
    unfold lastCouponFallback lastCouponIndexed
    exact head?_take_one _
  · intro coupons uid startTs
    unfold issuedSinceCountFallback issuedSinceCountIndexed
    simp [ge_iff_le]

end LineCoupon
